import Mathlib

/-!
Shallow embedding of the HireMe AutoPilot web client
(React single-page app: App.js, Dashboard.js, Login, Jobs, Applications,
ApplicationDetail, ResumeEditor, Layout).

Each definition translates one constant or handler of the source.  HTTP
requests are modelled by the `Request` record (method, url, headers,
timeout); handlers return `Option Request` (`none` = no network call
issued on that path).  JS objects held in arrays are modelled with an
explicit heap so that reference aliasing (shallow array copies sharing
entry objects) is visible.
-/

/-- App.js line 14: `export const API = "http://127.0.0.1:5000/api"`. -/
def API : String := "http://127.0.0.1:5000/api"

/-- Login page line 21: `const BACKEND_URL = "http://127.0.0.1:5000"`. -/
def BACKEND_URL : String := "http://127.0.0.1:5000"

/-- HTTP method of an axios call. -/
inductive Method
  | get
  | post
  | put
  | patch
  | delete
deriving DecidableEq, Repr

/-- An outbound axios request as configured by the client: URL, the
Authorization header value, the explicitly set Content-Type header
(`none` when the call leaves it unset), and the explicitly configured
timeout in milliseconds (`none` when the call sets no timeout). -/
structure Request where
  method : Method
  url : String
  authHeader : Option String
  contentType : Option String
  timeout : Option Nat
deriving DecidableEq, Repr

/-- JS template literal `Bearer ${token}` where `token` is
`localStorage.getItem('token')` and may be `null` (interpolating as the
string "null"). -/
def bearer (token : Option String) : String :=
  "Bearer " ++ token.getD "null"

/-- The part of a selected `File` the handlers inspect: its MIME type. -/
structure JSFile where
  type : String
deriving DecidableEq, Repr

/-- ResumeEditor lines 260-265: the client-side MIME allow-list. -/
def allowedTypes : List String :=
  [ "application/pdf"
  , "text/plain"
  , "application/msword"
  , "application/vnd.openxmlformats-officedocument.wordprocessingml.document" ]

/-- Dashboard.js lines 43-67, `handleFileUpload`: if a file is selected it
is POSTed to `${API}/resume/upload` with an explicit multipart
Content-Type and no timeout; there is no MIME-type check in the handler
(only the file input's advisory `accept` attribute). -/
def dashboardHandleFileUpload (file : Option JSFile) (token : Option String) :
    Option Request :=
  match file with
  | none => none
  | some _ =>
    some { method := .post
         , url := API ++ "/resume/upload"
         , authHeader := some (bearer token)
         , contentType := some "multipart/form-data"
         , timeout := none }

/-- ResumeEditor lines 256-305, `handleFileUpload`: rejects a missing
file, then any MIME type outside `allowedTypes` (toast, no request), then
a missing token (navigate to login, no request); otherwise POSTs to
`${API}/api/resume/upload` with no explicit Content-Type and a 30000 ms
timeout. -/
def resumeEditorHandleFileUpload (file : Option JSFile) (token : Option String) :
    Option Request :=
  match file with
  | none => none
  | some f =>
    if allowedTypes.contains f.type then
      match token with
      | none => none
      | some t =>
        some { method := .post
             , url := API ++ "/api/resume/upload"
             , authHeader := some (bearer (some t))
             , contentType := none
             , timeout := some 30000 }
    else none

/-- Dashboard.js line 31: the resume fetch URL `${API}/resume`. -/
def dashboardResumeUrl : String := API ++ "/resume"

/-- ResumeEditor line 226: the resume fetch URL `${API}/api/resume`. -/
def resumeEditorFetchUrl : String := API ++ "/api/resume"

/-- ResumeEditor line 316: the save URL `${API}/api/resume/${resume.id}`. -/
def resumeEditorSaveUrl (id : String) : String := API ++ "/api/resume/" ++ id

/-- The persisted session: the `token` and `user` localStorage entries. -/
structure Session where
  token : Option String
  user : Option String
deriving DecidableEq, Repr

/-- Navigation effect of a handler. -/
inductive Nav
  | stay
  | login
  | home
  | applications
deriving DecidableEq, Repr

/-- Jobs lines 42-44, the catch handler of `fetchJobs`: shows a toast for
every error status; it neither touches the persisted session nor
navigates. -/
def jobsFetchErrorHandler (_status : Nat) (s : Session) : Session × Nav :=
  (s, .stay)

/-- ResumeEditor lines 244-250, the catch handler of `fetchResume`: on
status 401 it toasts and navigates to the login view; the persisted
session entries are not removed on any status. -/
def resumeFetchErrorHandler (status : Nat) (s : Session) : Session × Nav :=
  if status = 401 then (s, .login) else (s, .stay)

/-- Dashboard.js lines 38-40, the catch handler of `fetchData`:
`console.error` only, for every status. -/
def dashboardFetchErrorHandler (_status : Nat) (s : Session) : Session × Nav :=
  (s, .stay)

/-- Applications lines 321-323, the catch handler of `fetchApplications`:
toast only, for every status. -/
def applicationsFetchErrorHandler (_status : Nat) (s : Session) : Session × Nav :=
  (s, .stay)

/-- ApplicationDetail lines 29-32, the catch handler of
`fetchApplication`: toast and navigate to the applications list, for
every status; the session is untouched. -/
def applicationDetailFetchErrorHandler (_status : Nat) (s : Session) :
    Session × Nav :=
  (s, .applications)

/-- Jobs lines 66-79, `handleDelete jobId`: `window.confirm` first; a
declined confirmation returns with no request and the jobs list
untouched.  A confirmed deletion issues DELETE `${API}/jobs/${jobId}`;
on success the list is reconciled by re-running `fetchJobs` (modelled by
`serverJobs`), on failure only a toast is shown. -/
def jobsHandleDelete (confirm : Bool) (jobId : String) (token : Option String)
    (requestSucceeds : Bool) (jobs serverJobs : List String) :
    Option Request × List String :=
  if !confirm then (none, jobs)
  else
    ( some { method := .delete
           , url := API ++ "/jobs/" ++ jobId
           , authHeader := some (bearer token)
           , contentType := none
           , timeout := none }
    , if requestSucceeds then serverJobs else jobs )

/-- Jobs lines 81-97, `handleApply jobId`: POST
`${API}/applications/${jobId}` with a 120000 ms timeout. -/
def jobsHandleApply (jobId : String) (token : Option String) : Request :=
  { method := .post
  , url := API ++ "/applications/" ++ jobId
  , authHeader := some (bearer token)
  , contentType := none
  , timeout := some 120000 }

/-- The `full_name`/`email` fields a stored user object may carry; the
empty JS object `{}` is the record with both absent. -/
structure UserData where
  full_name : Option String
  email : Option String
deriving DecidableEq, Repr

/-- The empty object literal `{}` used as the user fallback. -/
def emptyUserObj : UserData := { full_name := none, email := none }

/-- The localStorage state the auth flow writes: the `token` entry and
the serialized `user` entry. -/
structure Store where
  token : Option String
  user : Option UserData
deriving DecidableEq, Repr

/-- App.js lines 37-41, `login(token, userData)`: `localStorage.setItem`
on both entries, overwriting whatever was stored. -/
def appLogin (token : String) (userData : UserData) (_s : Store) : Store :=
  { token := some token, user := some userData }

/-- App.js lines 43-47, `logout()`: removes both entries. -/
def appLogout (_s : Store) : Store :=
  { token := none, user := none }

/-- The fields of a login/register response body the handlers read;
`none` models an absent field. -/
structure AuthResponse where
  access_token : Option String
  user : Option UserData
deriving DecidableEq, Repr

/-- JS `v || d` for a string-or-absent value: absent and the empty
string are falsy, every other string is truthy. -/
def jsOrString (v : Option String) (d : String) : String :=
  match v with
  | none => d
  | some s => if s = "" then d else s

/-- Login page lines 23-37, success path of `handleLogin`:
`login(response.data.access_token || 'dummy-token', response.data.user || {})`
then navigate to `/` (objects are always truthy, so the `|| {}` fallback
fires exactly when `user` is absent). -/
def handleLoginSuccess (r : AuthResponse) (s : Store) : Store × Nav :=
  (appLogin (jsOrString r.access_token "dummy-token") (r.user.getD emptyUserObj) s, .home)

/-- Login page lines 39-57, success path of `handleRegister`: identical
session creation and navigation after POST `${BACKEND_URL}/api/register`. -/
def handleRegisterSuccess (r : AuthResponse) (s : Store) : Store × Nav :=
  (appLogin (jsOrString r.access_token "dummy-token") (r.user.getD emptyUserObj) s, .home)

/-- An entry of the GET /applications collection as the views read it. -/
structure AppEntry where
  id : String
  job_title : String
  company : String
  status : String
  applied_at : String
deriving DecidableEq, Repr

/-- Dashboard.js line 37: `setRecentApplications(appsRes.data.slice(0, 5))`
(`slice(0, 5)` returns the first five elements, or the whole array when
it is shorter). -/
def dashboardRecentApplications (apps : List AppEntry) : List AppEntry :=
  apps.take 5

/-- Applications lines 341-347: the `statusColors` lookup table; a key
outside the five entries yields `undefined` (`none`). -/
def statusColorsApplications (status : String) : Option String :=
  if status = "applied" then some "bg-blue-500"
  else if status = "interview" then some "bg-purple-500"
  else if status = "rejected" then some "bg-red-500"
  else if status = "accepted" then some "bg-green-500"
  else if status = "pending" then some "bg-yellow-500"
  else none

/-- Dashboard.js lines 69-75: the `statusColors` table (same entries). -/
def statusColorsDashboard (status : String) : Option String :=
  if status = "applied" then some "bg-blue-500"
  else if status = "interview" then some "bg-purple-500"
  else if status = "rejected" then some "bg-red-500"
  else if status = "accepted" then some "bg-green-500"
  else if status = "pending" then some "bg-yellow-500"
  else none

/-- Applications lines 349-355 / Dashboard.js lines 77-83: the
`statusIcons` table, with icons named by their lucide component. -/
def statusIcons (status : String) : Option String :=
  if status = "applied" then some "Clock"
  else if status = "interview" then some "TrendingUp"
  else if status = "rejected" then some "XCircle"
  else if status = "accepted" then some "CheckCircle2"
  else if status = "pending" then some "Clock"
  else none

/-- The closed set of status strings the lookup tables cover. -/
def statusKeys : List String :=
  ["applied", "interview", "rejected", "accepted", "pending"]

/-- Whether `p` is an initial segment of the second list. -/
def listStartsWith : List Char → List Char → Bool
  | [], _ => true
  | _ :: _, [] => false
  | p :: ps, c :: cs => p = c && listStartsWith ps cs

/-- JS `String.replace` with a string pattern: replace the first
occurrence only (an empty pattern matches at the start). -/
def listReplaceFirst (pat rep : List Char) : List Char → List Char
  | [] => if pat.isEmpty then rep else []
  | c :: cs =>
    if listStartsWith pat (c :: cs) then rep ++ (c :: cs).drop pat.length
    else c :: listReplaceFirst pat rep cs

/-- JS `s.replace(pat, rep)` on strings. -/
def jsReplace (s pat rep : String) : String :=
  ⟨listReplaceFirst pat.data rep.data s.data⟩

/-- Applications lines 409-415 / Dashboard.js lines 263-269: the badge
text class `statusColors[app.status].replace('bg-', 'text-')`; the
`.replace` call is reached only when the lookup produced a value
(indexing `undefined` would throw a TypeError). -/
def applicationsBadgeClass (status : String) : Option String :=
  (statusColorsApplications status).map (fun c => jsReplace c "bg-" "text-")

/-- An experience entry object `{title, company, duration, description}`. -/
structure ExpEntry where
  title : String
  company : String
  duration : String
  description : String
deriving DecidableEq, Repr

/-- An education entry object `{degree, institution, year}`. -/
structure EduEntry where
  degree : String
  institution : String
  year : String
deriving DecidableEq, Repr

/-- The object heap: JS entry objects live here and are designated by
their index; arrays of objects hold such references, so a shallow array
copy (`[...arr]`) duplicates the references but not the objects. -/
structure Heap where
  exps : List ExpEntry
  edus : List EduEntry
deriving DecidableEq, Repr

/-- The ResumeEditor `editData` draft (the list-valued fields):
`skills` holds string values, `experience`/`education` hold references
into the heap. -/
structure EditData where
  skills : List String
  experience : List Nat
  education : List Nat
deriving DecidableEq, Repr

/-- A draft together with the heap its references point into. -/
structure EditorState where
  heap : Heap
  editData : EditData
deriving DecidableEq, Repr

/-- The mutable fields of an experience entry. -/
inductive ExpField
  | title
  | company
  | duration
  | description
deriving DecidableEq, Repr

/-- The mutable fields of an education entry. -/
inductive EduField
  | degree
  | institution
  | year
deriving DecidableEq, Repr

/-- Write one field of an experience object, `entry[field] = value`. -/
def setExpField (f : ExpField) (v : String) (e : ExpEntry) : ExpEntry :=
  match f with
  | .title => { e with title := v }
  | .company => { e with company := v }
  | .duration => { e with duration := v }
  | .description => { e with description := v }

/-- Write one field of an education object, `entry[field] = value`. -/
def setEduField (f : EduField) (v : String) (e : EduEntry) : EduEntry :=
  match f with
  | .degree => { e with degree := v }
  | .institution => { e with institution := v }
  | .year => { e with year := v }

/-- Replace the element at index `i` when it exists (in-place update of
one heap cell). -/
def listModify (l : List α) (i : Nat) (f : α → α) : List α :=
  match l.get? i with
  | none => l
  | some a => l.set i (f a)

/-- ResumeEditor lines 337-341, `updateSkill(index, value)`:
`const newSkills = [...editData.skills]; newSkills[index] = value;` then
`setEditData` with the fresh array.  Skills are string values, so the
copy shares nothing mutable with the previous draft. -/
def updateSkill (st : EditorState) (index : Nat) (value : String) : EditorState :=
  { st with editData := { st.editData with skills := st.editData.skills.set index value } }

/-- ResumeEditor lines 363-367, `updateExperience(index, field, value)`:
`const newExp = [...editData.experience];` copies the array of
references; `newExp[index][field] = value;` then writes through the
shared reference, mutating the heap object both drafts point at.
`none` models the TypeError thrown when `newExp[index]` is undefined. -/
def updateExperience (st : EditorState) (index : Nat) (f : ExpField) (value : String) :
    Option EditorState :=
  match st.editData.experience[index]? with
  | none => none
  | some r =>
    some { heap := { st.heap with exps := listModify st.heap.exps r (setExpField f value) }
         , editData := { st.editData with experience := st.editData.experience } }

/-- ResumeEditor lines 386-390, `updateEducation(index, field, value)`:
same shape as `updateExperience`, over the education entries. -/
def updateEducation (st : EditorState) (index : Nat) (f : EduField) (value : String) :
    Option EditorState :=
  match st.editData.education[index]? with
  | none => none
  | some r =>
    some { heap := { st.heap with edus := listModify st.heap.edus r (setEduField f value) }
         , editData := { st.editData with education := st.editData.education } }

/-- The value tree a draft denotes once its references are read through
the heap: what a render of the draft observes. -/
structure DraftValue where
  skills : List String
  experience : List (Option ExpEntry)
  education : List (Option EduEntry)
deriving DecidableEq, Repr

/-- Dereference every entry reference of a draft in a given heap. -/
def materialize (h : Heap) (d : EditData) : DraftValue :=
  { skills := d.skills
  , experience := d.experience.map (fun r => h.exps.get? r)
  , education := d.education.map (fun r => h.edus.get? r) }

/-- A concrete editor state: one experience entry, one education entry,
one skill, the draft referencing both entries. -/
def editorState0 : EditorState :=
  { heap := { exps := [{ title := "Dev", company := "Acme", duration := "1y", description := "code" }]
            , edus := [{ degree := "BSc", institution := "MIT", year := "2020" }] }
  , editData := { skills := ["python"], experience := [0], education := [0] } }

/-- The state produced by `updateExperience editorState0 0 title "Boss"`:
the shared experience object now reads "Boss". -/
def editorState1 : EditorState :=
  { heap := { exps := [{ title := "Boss", company := "Acme", duration := "1y", description := "code" }]
            , edus := [{ degree := "BSc", institution := "MIT", year := "2020" }] }
  , editData := { skills := ["python"], experience := [0], education := [0] } }

/-- The state produced by `updateEducation editorState0 0 degree "MSc"`. -/
def editorState2 : EditorState :=
  { heap := { exps := [{ title := "Dev", company := "Acme", duration := "1y", description := "code" }]
            , edus := [{ degree := "MSc", institution := "MIT", year := "2020" }] }
  , editData := { skills := ["python"], experience := [0], education := [0] } }

/-- A PNG file, a type outside the upload allow-list. -/
def pngFile : JSFile := { type := "image/png" }

/-- A PDF file, a type inside the upload allow-list. -/
def pdfFile : JSFile := { type := "application/pdf" }

/-- The request the ResumeEditor upload handler issues for a PDF with
token "tok". -/
def resumeEditorUploadReq : Request :=
  { method := .post
  , url := "http://127.0.0.1:5000/api/api/resume/upload"
  , authHeader := some "Bearer tok"
  , contentType := none
  , timeout := some 30000 }

/-- The request the Dashboard upload handler issues for any file with
token "tok". -/
def dashboardUploadReq : Request :=
  { method := .post
  , url := "http://127.0.0.1:5000/api/resume/upload"
  , authHeader := some "Bearer tok"
  , contentType := some "multipart/form-data"
  , timeout := none }

/-- A concrete entry of the applications collection. -/
def appEntry1 : AppEntry :=
  { id := "1", job_title := "SWE", company := "Acme", status := "applied"
  , applied_at := "2024-01-01" }

/-- C1, counterexample: "image/png" is outside the allow-list, yet the
Dashboard's `handleFileUpload` issues the POST to the resume upload
endpoint anyway — it performs no client-side type check. -/
theorem dashboardUpload_ignores_type :
    allowedTypes.contains "image/png" = false ∧
    dashboardHandleFileUpload (some pngFile) (some "tok") = some dashboardUploadReq := by
  decide

/-- C1 (amended): only the ResumeEditor's `handleFileUpload` rejects a
file whose MIME type is outside the allow-list before any network call;
the Dashboard's `handleFileUpload` issues the upload request for every
selected file regardless of its type. -/
theorem uploadTypeGate :
    (∀ (f : JSFile) (token : Option String),
        f.type ∉ allowedTypes →
        resumeEditorHandleFileUpload (some f) token = none) ∧
    (∀ (f : JSFile) (token : Option String),
        (dashboardHandleFileUpload (some f) token).isSome = true) := by
  constructor
  · intro f token h
    simp [resumeEditorHandleFileUpload, h]
  · intro f token
    simp [dashboardHandleFileUpload]

/-- C1 witness: the gate evaluated on a PNG file. -/
theorem uploadTypeGate_witness :
    resumeEditorHandleFileUpload (some pngFile) (some "tok") = none ∧
    (dashboardHandleFileUpload (some pngFile) (some "tok")).isSome = true :=
  ⟨uploadTypeGate.1 pngFile (some "tok") (by decide),
   uploadTypeGate.2 pngFile (some "tok")⟩

/-- C2, counterexample: a 401 on the Jobs fetch leaves the persisted
token and user in place and does not navigate to the login view, and
even the ResumeEditor's 401 branch keeps the session entries. -/
theorem fetch401_counterexample :
    jobsFetchErrorHandler 401 { token := some "tok", user := some "usr" } =
      ({ token := some "tok", user := some "usr" }, Nav.stay) ∧
    (resumeFetchErrorHandler 401 { token := some "tok", user := some "usr" }).1 =
      { token := some "tok", user := some "usr" } := by
  decide

/-- C2 (amended): on a 401 the ResumeEditor's `fetchResume` navigates to
the login view but never clears the persisted session; every other
view's fetch error handler leaves the session untouched and does not
navigate to login (Jobs, Dashboard, Applications stay; ApplicationDetail
navigates to the applications list on every error). -/
theorem fetch401Behavior :
    (∀ s : Session, resumeFetchErrorHandler 401 s = (s, Nav.login)) ∧
    (∀ (st : Nat) (s : Session), (resumeFetchErrorHandler st s).1 = s) ∧
    (∀ (st : Nat) (s : Session), jobsFetchErrorHandler st s = (s, Nav.stay)) ∧
    (∀ (st : Nat) (s : Session), dashboardFetchErrorHandler st s = (s, Nav.stay)) ∧
    (∀ (st : Nat) (s : Session), applicationsFetchErrorHandler st s = (s, Nav.stay)) ∧
    (∀ (st : Nat) (s : Session),
        applicationDetailFetchErrorHandler st s = (s, Nav.applications)) := by
  refine ⟨fun s => rfl, fun st s => ?_, fun st s => rfl, fun st s => rfl,
    fun st s => rfl, fun st s => rfl⟩
  unfold resumeFetchErrorHandler
  split <;> rfl

/-- C3: the ResumeEditor builds its resume URLs as `${API}/api/...` on
top of `API = "http://127.0.0.1:5000/api"`, yielding a doubled `/api`
segment, while the Dashboard's resume fetch targets `${API}/resume`;
the two views therefore address different paths for the same resource,
contradicting the endpoint table (GET /api/resume, PUT /api/resume/id). -/
theorem resumeEditor_doubled_api_segment :
    resumeEditorFetchUrl = "http://127.0.0.1:5000/api/api/resume" ∧
    dashboardResumeUrl = "http://127.0.0.1:5000/api/resume" ∧
    resumeEditorFetchUrl ≠ dashboardResumeUrl ∧
    resumeEditorSaveUrl "abc123" = "http://127.0.0.1:5000/api/api/resume/abc123" := by
  decide

/-- C4, counterexample: `updateExperience` at a valid index changes the
value the previous draft materializes to — the shallow array copy shares
the entry object, which is mutated in place. -/
theorem updateExperience_mutates_previous_draft :
    (updateExperience editorState0 0 ExpField.title "Boss").map
        (fun st => materialize st.heap editorState0.editData) ≠
      some (materialize editorState0.heap editorState0.editData) := by
  decide

/-- C4 (amended): `updateSkill` is pure copy-and-replace (the heap is
untouched, so the previous draft's observable value is unchanged), but
`updateExperience` and `updateEducation` copy only the array of
references and write the indexed entry object in place: the new draft
holds the same reference list as the old one, so after the update the
previous draft materializes to exactly the mutated value of the new
draft rather than to its own old value. -/
theorem updateOps_draft_sharing :
    (∀ (st : EditorState) (i : Nat) (v : String), (updateSkill st i v).heap = st.heap) ∧
    (∀ (st : EditorState) (i : Nat) (v : String),
        materialize (updateSkill st i v).heap st.editData =
          materialize st.heap st.editData) ∧
    (∀ (st st2 : EditorState) (i : Nat) (f : ExpField) (v : String),
        updateExperience st i f v = some st2 →
        st2.editData = st.editData ∧
        materialize st2.heap st.editData = materialize st2.heap st2.editData) ∧
    (∀ (st st2 : EditorState) (i : Nat) (f : EduField) (v : String),
        updateEducation st i f v = some st2 →
        st2.editData = st.editData ∧
        materialize st2.heap st.editData = materialize st2.heap st2.editData) := by
  refine ⟨fun st i v => rfl, fun st i v => rfl, ?_, ?_⟩
  · intro st st2 i f v h
    cases hg : st.editData.experience[i]? with
    | none => simp [updateExperience, hg] at h
    | some r =>
      simp [updateExperience, hg] at h
      subst h
      exact ⟨rfl, rfl⟩
  · intro st st2 i f v h
    cases hg : st.editData.education[i]? with
    | none => simp [updateEducation, hg] at h
    | some r =>
      simp [updateEducation, hg] at h
      subst h
      exact ⟨rfl, rfl⟩

/-- C4 witness: the sharing facts evaluated on the concrete states. -/
theorem updateOps_draft_sharing_witness :
    (editorState1.editData = editorState0.editData ∧
      materialize editorState1.heap editorState0.editData =
        materialize editorState1.heap editorState1.editData) ∧
    (editorState2.editData = editorState0.editData ∧
      materialize editorState2.heap editorState0.editData =
        materialize editorState2.heap editorState2.editData) :=
  ⟨updateOps_draft_sharing.2.2.1 editorState0 editorState1 0 ExpField.title "Boss" (by decide),
   updateOps_draft_sharing.2.2.2 editorState0 editorState2 0 EduField.degree "MSc" (by decide)⟩

/-- C5, counterexample: the Dashboard's upload request carries an
explicitly set Content-Type header. -/
theorem dashboardUpload_explicit_contentType :
    (dashboardHandleFileUpload (some pdfFile) (some "tok")).map
        (fun r => r.contentType) = some (some "multipart/form-data") := by
  decide

/-- C5 (amended): the ResumeEditor's upload request leaves the
Content-Type header unset (the transport layer adds the multipart
boundary), but the Dashboard's upload request explicitly sets
Content-Type to multipart/form-data. -/
theorem uploadContentType :
    (∀ (f : JSFile) (token : Option String) (req : Request),
        resumeEditorHandleFileUpload (some f) token = some req →
        req.contentType = none) ∧
    (∀ (f : JSFile) (token : Option String) (req : Request),
        dashboardHandleFileUpload (some f) token = some req →
        req.contentType = some "multipart/form-data") := by
  constructor
  · intro f token req h
    cases token with
    | none =>
      by_cases hc : f.type ∈ allowedTypes <;>
        simp [resumeEditorHandleFileUpload, hc] at h
    | some t =>
      by_cases hc : f.type ∈ allowedTypes
      · simp [resumeEditorHandleFileUpload, hc] at h
        subst h
        rfl
      · simp [resumeEditorHandleFileUpload, hc] at h
  · intro f token req h
    simp [dashboardHandleFileUpload] at h
    subst h
    rfl

/-- C5 witness: the header facts on the concrete PDF requests. -/
theorem uploadContentType_witness :
    resumeEditorUploadReq.contentType = none ∧
    dashboardUploadReq.contentType = some "multipart/form-data" :=
  ⟨uploadContentType.1 pdfFile (some "tok") resumeEditorUploadReq (by decide),
   uploadContentType.2 pdfFile (some "tok") dashboardUploadReq (by decide)⟩

/-- C6, counterexample: the Dashboard's upload request is configured
with no timeout at all, not a 30-second one. -/
theorem dashboardUpload_no_timeout :
    (dashboardHandleFileUpload (some pdfFile) (some "tok")).map
        (fun r => r.timeout) = some none := by
  decide

/-- C6 (amended): the ResumeEditor's upload request carries the 30000 ms
timeout and the apply-with-AI request carries the 120000 ms timeout, but
the Dashboard's upload request sets no timeout. -/
theorem requestTimeouts :
    (∀ (f : JSFile) (token : Option String) (req : Request),
        resumeEditorHandleFileUpload (some f) token = some req →
        req.timeout = some 30000) ∧
    (∀ (jobId : String) (token : Option String),
        (jobsHandleApply jobId token).timeout = some 120000) ∧
    (∀ (f : JSFile) (token : Option String) (req : Request),
        dashboardHandleFileUpload (some f) token = some req →
        req.timeout = none) := by
  refine ⟨?_, fun jobId token => rfl, ?_⟩
  · intro f token req h
    cases token with
    | none =>
      by_cases hc : f.type ∈ allowedTypes <;>
        simp [resumeEditorHandleFileUpload, hc] at h
    | some t =>
      by_cases hc : f.type ∈ allowedTypes
      · simp [resumeEditorHandleFileUpload, hc] at h
        subst h
        rfl
      · simp [resumeEditorHandleFileUpload, hc] at h
  · intro f token req h
    simp [dashboardHandleFileUpload] at h
    subst h
    rfl

/-- C6 witness: the timeout facts on the concrete requests. -/
theorem requestTimeouts_witness :
    resumeEditorUploadReq.timeout = some 30000 ∧
    (jobsHandleApply "42" (some "tok")).timeout = some 120000 ∧
    dashboardUploadReq.timeout = none :=
  ⟨requestTimeouts.1 pdfFile (some "tok") resumeEditorUploadReq (by decide),
   requestTimeouts.2.1 "42" (some "tok"),
   requestTimeouts.2.2 pdfFile (some "tok") dashboardUploadReq (by decide)⟩

/-- C7: `handleDelete` is confirmation-gated: a declined confirmation
issues no request and leaves the jobs list unchanged; a confirmed one
issues DELETE `${API}/jobs/${jobId}`. -/
theorem handleDelete_confirmGate :
    (∀ (jobId : String) (token : Option String) (rs : Bool)
        (jobs serverJobs : List String),
        jobsHandleDelete false jobId token rs jobs serverJobs = (none, jobs)) ∧
    (∀ (jobId : String) (token : Option String) (rs : Bool)
        (jobs serverJobs : List String),
        (jobsHandleDelete true jobId token rs jobs serverJobs).1 =
          some { method := .delete
               , url := API ++ "/jobs/" ++ jobId
               , authHeader := some (bearer token)
               , contentType := none
               , timeout := none }) :=
  ⟨fun _ _ _ _ _ => rfl, fun _ _ _ _ _ => rfl⟩

/-- C8: the Dashboard's recent list is exactly the first five elements
of the GET /applications collection (the whole collection when it is
shorter) and never holds more than five entries; the login success
handler persists both the token and the user and only then navigates to
the dashboard route. -/
theorem dashboardRecent_take5_and_login :
    (∀ apps : List AppEntry, dashboardRecentApplications apps = apps.take 5) ∧
    (∀ apps : List AppEntry, (dashboardRecentApplications apps).length ≤ 5) ∧
    (∀ apps : List AppEntry, apps.length ≤ 5 → dashboardRecentApplications apps = apps) ∧
    (∀ (t : String) (u : UserData) (s : Store), t ≠ "" →
        handleLoginSuccess { access_token := some t, user := some u } s =
          ({ token := some t, user := some u }, Nav.home)) := by
  refine ⟨fun apps => rfl, fun apps => ?_, fun apps h => ?_, fun t u s h => ?_⟩
  · simp [dashboardRecentApplications]
  · simp [dashboardRecentApplications, List.take_of_length_le h]
  · simp [handleLoginSuccess, appLogin, jsOrString, h]

/-- C8 witness: the facts evaluated on a one-element collection and a
concrete successful login response. -/
theorem dashboardRecent_take5_and_login_witness :
    dashboardRecentApplications [appEntry1] = [appEntry1] ∧
    handleLoginSuccess { access_token := some "tok", user := some emptyUserObj }
        { token := none, user := none } =
      ({ token := some "tok", user := some emptyUserObj }, Nav.home) :=
  ⟨dashboardRecent_take5_and_login.2.2.1 [appEntry1] (by decide),
   dashboardRecent_take5_and_login.2.2.2 "tok" emptyUserObj
     { token := none, user := none } (by decide)⟩

/-- The lookup tables are defined exactly on the five status keys. -/
theorem statusColors_isSome_iff (s : String) :
    (statusColorsApplications s).isSome = true ↔ s ∈ statusKeys := by
  unfold statusColorsApplications statusKeys
  split_ifs with h1 h2 h3 h4 h5 <;> simp_all

/-- C9: the status badge lookup is total precisely on
{applied, interview, rejected, accepted, pending}: inside the set the
color, icon, and the derived badge class are all defined (so the
undefined-lookup branch is unreachable), and any status outside the set
makes the lookup undefined; the Dashboard's table agrees with the
Applications one. -/
theorem statusLookup_total :
    (∀ s : String, (statusColorsApplications s).isSome = true ↔ s ∈ statusKeys) ∧
    (∀ s : String, statusColorsDashboard s = statusColorsApplications s) ∧
    (∀ s : String, (applicationsBadgeClass s).isSome = true ↔ s ∈ statusKeys) ∧
    (∀ s : String, (statusIcons s).isSome = true ↔ s ∈ statusKeys) := by
  refine ⟨statusColors_isSome_iff, fun s => rfl, fun s => ?_, fun s => ?_⟩
  · have hc := statusColors_isSome_iff s
    cases h : statusColorsApplications s with
    | none =>
      simp [h] at hc
      simp [applicationsBadgeClass, h, hc]
    | some c =>
      simp [h] at hc
      simp [applicationsBadgeClass, h, hc]
  · unfold statusIcons statusKeys
    split_ifs with h1 h2 h3 h4 h5 <;> simp_all

/-- C10: when a login or register response succeeds without an
access_token or a user object, the client still persists a session with
the literal token "dummy-token" and the empty user object; and every
successful login persists some token, so a persisted token does not
imply the server issued one. -/
theorem login_dummy_fallback :
    (∀ s : Store, handleLoginSuccess { access_token := none, user := none } s =
        ({ token := some "dummy-token", user := some emptyUserObj }, Nav.home)) ∧
    (∀ s : Store, handleRegisterSuccess { access_token := none, user := none } s =
        ({ token := some "dummy-token", user := some emptyUserObj }, Nav.home)) ∧
    (∀ (r : AuthResponse) (s : Store),
        ((handleLoginSuccess r s).1.token).isSome = true) :=
  ⟨fun _ => rfl, fun _ => rfl, fun _ _ => rfl⟩
